import Mathlib

/-!
Shallow embedding of the gtm-research-engine backend (Python) in Lean 4,
with theorems settling the frozen claims about its specification.

Conventions of the embedding:
* Python floats that carry clock readings (time.monotonic, time.perf_counter)
  are modelled as rationals (ℚ); the current clock reading is passed
  explicitly to any operation that reads the clock.
* Mutating methods become functions returning the updated value (plus the
  method result where there is one).
* Fallible Python code (raised exceptions) is modelled with Except String.
-/

namespace GTM

/-! ## src/backend/app/core/circuit_breaker.py -/

/-- CircuitState enum (circuit_breaker.py lines 7-10).  Python member OPEN is
named opened here because open is a Lean keyword. -/
inductive CircuitState where
  | closed
  | opened
  | half_open
deriving DecidableEq, Repr

/-- CircuitBreaker dataclass (circuit_breaker.py lines 13-47).  The Python
fields _state, _failure_count, _opened_at keep their names without the
leading underscore. -/
structure CircuitBreaker where
  failure_threshold : Nat
  reset_timeout_seconds : ℚ
  state : CircuitState := .closed
  failure_count : Nat := 0
  opened_at : Option ℚ := none
deriving DecidableEq, Repr

/-- A freshly constructed breaker: all dataclass defaults. -/
def CircuitBreaker.init (thresh : Nat) (timeout : ℚ) : CircuitBreaker :=
  { failure_threshold := thresh, reset_timeout_seconds := timeout }

/-- allow_request (circuit_breaker.py lines 22-32).  Takes the current
monotonic-clock reading; returns the boolean result and the updated breaker
(the OPEN → HALF_OPEN transition mutates state). -/
def CircuitBreaker.allow_request (b : CircuitBreaker) (now : ℚ) :
    Bool × CircuitBreaker :=
  if b.state = .closed then (true, b)
  else if b.state = .opened then
    match b.opened_at with
    | none => (false, b)
    | some t =>
      if b.reset_timeout_seconds ≤ now - t then
        (true, { b with state := .half_open })
      else (false, b)
  else (true, b)

/-- record_success (circuit_breaker.py lines 34-37). -/
def CircuitBreaker.record_success (b : CircuitBreaker) : CircuitBreaker :=
  { b with state := .closed, failure_count := 0, opened_at := none }

/-- record_failure (circuit_breaker.py lines 39-43).  Takes the current
monotonic-clock reading used to stamp the open time. -/
def CircuitBreaker.record_failure (b : CircuitBreaker) (now : ℚ) :
    CircuitBreaker :=
  let c := b.failure_count + 1
  if b.failure_threshold ≤ c then
    { b with failure_count := c, state := .opened, opened_at := some now }
  else
    { b with failure_count := c }

/-- Folding record_failure over a list of clock readings: a sequence of
consecutive record_failure calls with no intervening record_success. -/
def CircuitBreaker.record_failures (b : CircuitBreaker) (ts : List ℚ) :
    CircuitBreaker :=
  ts.foldl (fun b t => b.record_failure t) b

/-! ## src/backend/app/core/metrics.py -/

/-- RunMetrics dataclass (metrics.py lines 6-16). -/
structure RunMetrics where
  start_time : ℚ
  total_queries_executed : Nat := 0
  failed_requests : Nat := 0
deriving DecidableEq, Repr

/-- record_query (metrics.py lines 12-13). -/
def RunMetrics.record_query (m : RunMetrics) (successes : Nat := 1) :
    RunMetrics :=
  { m with total_queries_executed := m.total_queries_executed + successes }

/-- record_failure (metrics.py lines 15-16). -/
def RunMetrics.record_failure (m : RunMetrics) (failures : Nat := 1) :
    RunMetrics :=
  { m with failed_requests := m.failed_requests + failures }

/-- The elapsed-time divisor of to_dict (metrics.py line 19):
max(0.0001, time.perf_counter() - self.start_time), with the
perf_counter reading passed in as now. -/
def RunMetrics.elapsed (m : RunMetrics) (now : ℚ) : ℚ :=
  max (1 / 10000) (now - m.start_time)

/-- Python round(x, 2) modelled on ℚ as nearest-integer rounding of 100·x
(Python rounds float ties to even; ties are immaterial to the claims). -/
def round2 (q : ℚ) : ℚ :=
  (round (q * 100) : ℤ) / 100

/-- to_dict (metrics.py lines 18-24): the returned dict, modelled as the
pair (queries_per_second, failed_requests). -/
def RunMetrics.to_dict (m : RunMetrics) (now : ℚ) : ℚ × Nat :=
  let elapsed := m.elapsed now
  let qps := (m.total_queries_executed : ℚ) / elapsed
  (round2 qps, m.failed_requests)

/-! ## src/backend/app/models/response.py -/

/-- Evidence model (response.py lines 6-10).  Note: the model has exactly
these four fields; in particular it has no relevance-score field. -/
structure Evidence where
  url : String
  title : String
  snippet : String
  source_name : String
deriving DecidableEq, Repr

/-- Findings model (response.py lines 13-16). -/
structure Findings where
  technologies : List String := []
  evidence : List Evidence := []
  signals_found : Nat := 0
deriving DecidableEq, Repr

/-- CompanyResearchResult model (response.py lines 19-23). -/
structure CompanyResearchResult where
  domain : String
  confidence_score : ℚ
  evidence_sources : Nat
  findings : Findings
deriving DecidableEq, Repr

/-! ## src/backend/app/sources/base.py -/

/-- SourceResult dataclass (base.py lines 7-14). -/
structure SourceResult where
  channel : String
  domain : String
  query : String
  evidences : List Evidence
  ok : Bool
  error : Option String := none
deriving DecidableEq, Repr

/-! ## src/backend/app/models/search.py -/

/-- QueryStrategy dataclass (search.py lines 4-12). -/
structure QueryStrategy where
  channel : String
  query_template : String
  relevance_score : ℚ := 1
deriving DecidableEq, Repr

/-- Python str.format restricted to the keyword fields DOMAIN and
COMPANY_NAME, as invoked at search.py lines 22-24.  First argument: none
means we are scanning literal text, some acc means we are inside a
replacement field whose name characters so far are acc (reversed).
Doubled braces are literal braces; a field name other than DOMAIN or
COMPANY_NAME raises KeyError; an unmatched brace raises ValueError.
Raised errors are modelled as Except.error. -/
def formatGo (d n : String) :
    Option (List Char) → List Char → Except String (List Char)
  | none, [] => .ok []
  | none, '{' :: '{' :: cs => (fun r => '{' :: r) <$> formatGo d n none cs
  | none, '{' :: cs => formatGo d n (some []) cs
  | none, '}' :: '}' :: cs => (fun r => '}' :: r) <$> formatGo d n none cs
  | none, '}' :: _ => .error "ValueError: single brace encountered in format string"
  | none, c :: cs => (fun r => c :: r) <$> formatGo d n none cs
  | some _, [] => .error "ValueError: expected brace before end of string"
  | some acc, '}' :: cs =>
    if String.mk acc.reverse = "DOMAIN" then
      (fun r => d.toList ++ r) <$> formatGo d n none cs
    else if String.mk acc.reverse = "COMPANY_NAME" then
      (fun r => n.toList ++ r) <$> formatGo d n none cs
    else .error ("KeyError: " ++ String.mk acc.reverse)
  | some acc, c :: cs => formatGo d n (some (c :: acc)) cs

/-- template.format(DOMAIN=d, COMPANY_NAME=n) over whole strings. -/
def pyFormat (template d n : String) : Except String String :=
  String.mk <$> formatGo d n none template.toList

/-- Python company_domain.split(".")[0]: the prefix of the string before
its first dot (the whole string when it has no dot). -/
def splitDotHead (s : String) : String :=
  String.mk (s.toList.takeWhile (fun c => c ≠ '.'))

/-- build_query (search.py lines 14-24).  A KeyError/ValueError raised by
str.format propagates as Except.error. -/
def QueryStrategy.build_query (s : QueryStrategy) (company_domain : String) :
    Except String String :=
  if s.channel = "jobs_search" then .ok s.query_template
  else
    pyFormat s.query_template company_domain (splitDotHead company_domain)

/-! ## src/backend/app/services/pipeline.py: _execute_one -/

/-- Observable resource effects of one task, in program order.  Pool
acquisition/release model entering and leaving the async-with block on the
channel's semaphore (pipeline.py line 95); sourceFetch models the await of
source.fetch (line 97). -/
inductive Effect where
  | poolAcquire (pool : String)
  | poolRelease (pool : String)
  | sourceFetch (channel : String)
deriving DecidableEq, Repr

/-- Keys of self.source_pools (pipeline.py lines 44-47). -/
def source_pool_keys : List String := ["google_search", "news_search"]

/-- pool_name (pipeline.py line 93): the channel when it has a dedicated
pool, the shared default pool otherwise. -/
def pool_name_for (channel : String) : String :=
  if channel ∈ source_pool_keys then channel else "default_pool"

/-- Result of executing one task: the value returned by _execute_one (or a
propagated exception as Except.error), the channel's circuit breaker and
the run metrics after the call, and the ordered pool/fetch effects. -/
structure ExecOutcome where
  result : Except String (String × SourceResult)
  breaker : CircuitBreaker
  metrics : RunMetrics
  effects : List Effect
deriving Repr

/-- ResearchPipeline._execute_one (pipeline.py lines 65-120).
sources maps a channel to its registered Source's fetch behaviour, where
.ok r is a normal return and .error e is a raised exception with text e
(self.sources.get at line 70).  now is the monotonic-clock reading at the
breaker check; tdone the reading when the outcome is recorded. -/
def execute_one
    (sources : String → Option (String → String → String → Except String SourceResult))
    (breaker : CircuitBreaker) (metrics : RunMetrics)
    (domain : String) (strategy : QueryStrategy) (search_depth : String)
    (now tdone : ℚ) : ExecOutcome :=
  match strategy.build_query domain with
  | .error e => ⟨.error e, breaker, metrics, []⟩
  | .ok query =>
    match sources strategy.channel with
    | none =>
      ⟨.ok (domain, ⟨strategy.channel, domain, query, [], false, some "unknown channel"⟩),
        breaker, metrics, []⟩
    | some fetch =>
      match breaker.allow_request now with
      | (false, breaker1) =>
        ⟨.ok (domain, ⟨strategy.channel, domain, query, [], false, some "circuit open"⟩),
          breaker1, metrics, []⟩
      | (true, breaker1) =>
        let pool := pool_name_for strategy.channel
        match fetch domain query search_depth with
        | .ok result =>
          if result.ok && !result.evidences.isEmpty then
            ⟨.ok (domain, result), breaker1.record_success, metrics.record_query 1,
              [.poolAcquire pool, .sourceFetch strategy.channel, .poolRelease pool]⟩
          else
            ⟨.ok (domain, result), breaker1.record_failure tdone, metrics.record_failure 1,
              [.poolAcquire pool, .sourceFetch strategy.channel, .poolRelease pool]⟩
        | .error exc =>
          ⟨.ok (domain, ⟨strategy.channel, domain, query, [], false, some exc⟩),
            breaker1.record_failure tdone, metrics.record_failure 1,
            [.poolAcquire pool, .sourceFetch strategy.channel, .poolRelease pool]⟩

/-! ## src/backend/app/services/streaming_aggregator.py -/

/-- Python regex \s for the ASCII range (re.sub r"\s+" at line 89). -/
def pyIsSpace (c : Char) : Bool :=
  c = ' ' || c = '\t' || c = '\n' || c = '\r' || c = '\x0b' || c = '\x0c'

/-- Replace each maximal whitespace run by a single space; the Bool is
true when the previous character belonged to a whitespace run. -/
def collapseWsGo : Bool → List Char → List Char
  | _, [] => []
  | prev, c :: cs =>
    if pyIsSpace c then
      if prev then collapseWsGo true cs else ' ' :: collapseWsGo true cs
    else c :: collapseWsGo false cs

/-- Python text.strip(): drop leading and trailing whitespace. -/
def pyStrip (s : List Char) : List Char :=
  ((s.dropWhile pyIsSpace).reverse.dropWhile pyIsSpace).reverse

/-- _normalize_text (streaming_aggregator.py lines 87-89):
re.sub(r"\s+", " ", text.strip().lower()), for ASCII text. -/
def normalize_text (text : String) : String :=
  String.mk (collapseWsGo false ((pyStrip text.toList).map Char.toLower))

/-- _evidence_key (lines 91-95): the SHA-1 hex digest of
url ++ "|" ++ normalized title, modelled by the digest's preimage string
(SHA-1 collisions are not modelled).  Note the url enters the key raw;
only the title is normalized. -/
def evidence_key (e : Evidence) : String :=
  e.url ++ "|" ++ normalize_text e.title

/-- needle appears as a contiguous substring of hay (Python `in`). -/
def containsSub (needle hay : List Char) : Bool :=
  hay.tails.any (fun t => needle.isPrefixOf t)

/-- _extract_technologies (lines 97-108): keywords whose lowercase form
occurs in the lowercased title-plus-snippet blob of some evidence item,
each keyword collected at most once. -/
def extract_technologies (tech_keywords : List String)
    (evidences : List Evidence) : List String :=
  evidences.foldl
    (fun acc e =>
      let blob := (e.title ++ " " ++ e.snippet).toList.map Char.toLower
      tech_keywords.foldl
        (fun acc kw =>
          if containsSub (kw.toList.map Char.toLower) blob ∧ kw ∉ acc then
            acc ++ [kw]
          else acc)
        acc)
    []

/-- StreamingState (lines 13-21).  evidences_by_key is an insertion-ordered
association list; the Python sets source_names and technologies are
insertion-ordered duplicate-free lists; last_updated is a wall-clock
reading. -/
structure StreamingState where
  domain : String
  evidences_by_key : List (String × Evidence) := []
  source_names : List String := []
  technologies : List String := []
  last_updated : ℚ
  evidence_count : Nat := 0
deriving DecidableEq, Repr

/-- StreamUpdate (lines 24-32). -/
structure StreamUpdate where
  event_type : String
  domain : String
  new_evidence : Option Evidence := none
  current_result : Option CompanyResearchResult := none
  total_evidence : Nat := 0
  completion_percentage : ℚ := 0
deriving DecidableEq, Repr

/-- _compute_confidence (lines 110-131). -/
def compute_confidence (unique_sources total_evidence tech_count : Nat) : ℚ :=
  let source_factor := min ((unique_sources : ℚ) / 3) 1
  let evidence_factor := min ((total_evidence : ℚ) / 10) 1
  let tech_factor := min ((tech_count : ℚ) / 5) 1
  let confidence :=
    source_factor * (4 / 10) + evidence_factor * (3 / 10) + tech_factor * (3 / 10)
  max 0 (min 1 confidence)

/-- _build_result (lines 133-164).  The Findings constructor at lines
152-157 also passes an ai_fraud_detection keyword, but the Findings model
(response.py lines 13-16) declares no such field and pydantic ignores the
extra argument, so it does not appear here. -/
def build_result (state : StreamingState) : CompanyResearchResult :=
  let evidences := state.evidences_by_key.map Prod.snd
  let technologies := state.technologies.mergeSort (fun a b => a ≤ b)
  let confidence := compute_confidence state.source_names.length
    evidences.length technologies.length
  { domain := state.domain
    confidence_score := round2 confidence
    evidence_sources := state.source_names.length
    findings :=
      { technologies := technologies
        evidence := evidences
        signals_found := technologies.length } }

/-- StreamingAggregator state (lines 47-64).  tech_keywords holds the
constructor's keyword list (line 54: the argument, or the default list
built by _get_default_keywords when none is given). -/
structure StreamingAggregator where
  research_goal : String
  tech_keywords : List String
  confidence_threshold : ℚ := 7 / 10
  domain_states : List (String × StreamingState) := []
  completed_domains : List String := []
  total_expected_results : Nat := 0
  total_received_results : Nat := 0
deriving DecidableEq, Repr

/-- Insert or replace a binding in an association list, keeping insertion
order (Python dict assignment). -/
def assocSet : List (String × α) → String → α → List (String × α)
  | [], k, v => [(k, v)]
  | (k1, v1) :: rest, k, v =>
    if k1 = k then (k1, v) :: rest else (k1, v1) :: assocSet rest k v

/-- add_evidence (lines 166-216), with now the wall-clock reading.  In the
duplicate-key branch (lines 181-186) the code reads evidence.score, but the
Evidence model (response.py lines 6-10) defines no score field, so that
branch raises AttributeError; the raise is modelled as Except.error. -/
def StreamingAggregator.add_evidence (agg : StreamingAggregator)
    (domain : String) (ev : Evidence) (now : ℚ) :
    Except String (StreamingAggregator × StreamUpdate) :=
  let state :=
    match agg.domain_states.lookup domain with
    | some st => st
    | none => { domain := domain, last_updated := now }
  let key := evidence_key ev
  match state.evidences_by_key.lookup key with
  | some _ => .error "AttributeError: Evidence object has no attribute score"
  | none =>
    let new_techs := extract_technologies agg.tech_keywords [ev]
    let state1 : StreamingState :=
      { state with
        evidences_by_key := state.evidences_by_key ++ [(key, ev)]
        evidence_count := state.evidence_count + 1
        source_names :=
          if ev.source_name ∈ state.source_names then state.source_names
          else state.source_names ++ [ev.source_name]
        technologies :=
          state.technologies
            ++ new_techs.filter (fun t => t ∉ state.technologies)
        last_updated := now }
    let received := agg.total_received_results + 1
    let current_result := build_result state1
    let completion_pct :=
      ((received : ℚ) / (max agg.total_expected_results 1 : Nat)) * 100
    .ok
      ({ agg with
          domain_states := assocSet agg.domain_states domain state1
          total_received_results := received },
        { event_type := "evidence_added"
          domain := domain
          new_evidence := some ev
          current_result := some current_result
          total_evidence := received
          completion_percentage := min completion_pct 100 })

/-! ## src/backend/app/services/pipeline.py: run -/

/-- Shape of the dict returned by Extractor.analyze_company
(extractor.py lines 249-270), consumed by _build_company_result. -/
structure AnalysisResult where
  technologies : List String := []
  goal_match_signals : List String := []
  confidence_score : ℚ := 0
deriving DecidableEq, Repr

/-- _build_company_result (pipeline.py lines 181-204). -/
def build_company_result (domain : String) (evidences : List Evidence)
    (analysis : AnalysisResult) : CompanyResearchResult :=
  { domain := domain
    confidence_score := round2 analysis.confidence_score
    evidence_sources := (evidences.map (fun e => e.source_name)).dedup.length
    findings :=
      { technologies := analysis.technologies
        evidence := evidences
        signals_found := analysis.goal_match_signals.length } }

/-- _build_empty_result (pipeline.py lines 206-218). -/
def build_empty_result (domain : String) : CompanyResearchResult :=
  { domain := domain
    confidence_score := 0
    evidence_sources := 0
    findings := { technologies := [], evidence := [], signals_found := 0 } }

/-- domain_to_evidence[domain].extend(evidences) on an insertion-ordered
association list (pipeline.py line 161 with a defaultdict(list)). -/
def addEvidences (m : List (String × List Evidence)) (d : String)
    (evs : List Evidence) : List (String × List Evidence) :=
  match m with
  | [] => [(d, evs)]
  | (k, v) :: rest =>
    if k = d then (k, v ++ evs) :: rest else (k, v) :: addEvidences rest d evs

/-- One iteration of the evidence-collection loop of run (pipeline.py
lines 156-161): keep the completed result only when ok is true and the
evidence list is non-empty (line 160). -/
def collectStep (m : List (String × List Evidence))
    (p : String × SourceResult) : List (String × List Evidence) :=
  if p.2.ok && !p.2.evidences.isEmpty then addEvidences m p.1 p.2.evidences
  else m

/-- The evidence-collection loop of run (pipeline.py lines 156-161): fold
the completed (domain, SourceResult) pairs in completion order. -/
def collect_evidence (completed : List (String × SourceResult)) :
    List (String × List Evidence) :=
  completed.foldl collectStep []

/-- ResearchPipeline.run (pipeline.py lines 134-179), given the completed
(domain, SourceResult) pairs of all planned tasks in completion order and
the Analyzer behaviour.  analyze_domain (lines 122-131) runs the extractor
on non-empty evidence and builds an empty result otherwise; the Redis cache
clear there does not affect the returned value and is not modelled.  The
analysis results are listed in domain_to_evidence order and the set
difference of line 174 in first-occurrence order of company_domains; the
theorems proved about run are insensitive to those orders.  Returns the
result list and total_planned = |company_domains| * |strategies|. -/
def run_results (company_domains : List String)
    (strategies : List QueryStrategy)
    (completed : List (String × SourceResult))
    (analyze : String → List Evidence → AnalysisResult) :
    List CompanyResearchResult × Nat :=
  let m := collect_evidence completed
  let analyzed := m.map (fun p =>
    if p.2.isEmpty then build_empty_result p.1
    else build_company_result p.1 p.2 (analyze p.1 p.2))
  let missing := (company_domains.dedup.filter
    (fun d => d ∉ m.map Prod.fst)).map build_empty_result
  (analyzed ++ missing, company_domains.length * strategies.length)

/-! ## src/backend/app/streaming: sse_formatter.py and stream_generator.py -/

/-- An SSE event reduced to its event type and optional id
(SSEFormatter.format_event, sse_formatter.py lines 18-48; ids are decimal
strings of the generator's event counter, modelled as Nat). -/
structure SSEEvent where
  etype : String
  eid : Option Nat := none
deriving DecidableEq, Repr

/-- The event-type sequence yielded by run_stream_optimized
(pipeline.py lines 221-366): pipeline_start, then the milestone
evidence_progress events, evidence_complete, analysis_start, one
domain_analyzed per analyzed domain, and finally pipeline_complete. -/
def run_stream_types (progress domains_analyzed : Nat) : List String :=
  "pipeline_start" :: List.replicate progress "evidence_progress"
    ++ ["evidence_complete", "analysis_start"]
    ++ List.replicate domains_analyzed "domain_analyzed"
    ++ ["pipeline_complete"]

/-- The per-event loop of ResearchStreamGenerator.generate_stream
(stream_generator.py lines 50-72).  Each raw item is some t for a payload
parsing to an object of type t, none for an unparseable payload (the
JSONDecodeError branch).  hb gives, per iteration, whether the heartbeat
idle interval had elapsed (the time comparison at line 55).  c is the
event counter after the previous event. -/
def streamLoop : List (Option String) → List Bool → Nat → List SSEEvent
  | [], _, _ => []
  | r :: rs, hbs, c =>
    (if hbs.headD false then [⟨"heartbeat", none⟩] else [])
      ++ (match r with
          | some t => [⟨t, some (c + 1)⟩]
          | none => [⟨"error", none⟩])
      ++ streamLoop rs hbs.tail (c + 1)

/-- ResearchStreamGenerator.generate_stream (stream_generator.py lines
31-90): the connected event (id 0), the loop events, then the terminal
framing — stream_complete on normal pipeline termination, or the error
event followed by the stream_error event when pulling a pipeline event
raised with text e (pipelineError = some e).  The asyncio.CancelledError
branch (client disconnect, lines 77-80) re-raises and is not modelled. -/
def generate_stream (raws : List (Option String))
    (pipelineError : Option String) (hb : List Bool) : List SSEEvent :=
  ⟨"connected", some 0⟩ :: streamLoop raws hb 1
    ++ (match pipelineError with
        | none => [⟨"completed", none⟩]
        | some _ => [⟨"error", none⟩, ⟨"stream_error", none⟩])

/-- Terminal-class events in the sense of the streaming contract:
the completed class (completed, pipeline_complete) and the error class
(error, stream_error). -/
def isTerminalClass (e : SSEEvent) : Bool :=
  e.etype = "completed" || e.etype = "pipeline_complete"
    || e.etype = "error" || e.etype = "stream_error"

/-! ## Template segments: the spec's reading of build_query (claim C9) -/

/-- A query template decomposed into literal text and the two placeholders
the system substitutes. -/
inductive TemplateSeg where
  | lit (s : String)
  | dom
  | comp
deriving DecidableEq, Repr

/-- The template string denoted by a segment list. -/
def renderTemplate : List TemplateSeg → String
  | [] => ""
  | .lit s :: rest => s ++ renderTemplate rest
  | .dom :: rest => "{DOMAIN}" ++ renderTemplate rest
  | .comp :: rest => "{COMPANY_NAME}" ++ renderTemplate rest

/-- The claim's described output: the template with DOMAIN replaced by d
and COMPANY_NAME replaced by n. -/
def renderSubst (d n : String) : List TemplateSeg → String
  | [] => ""
  | .lit s :: rest => s ++ renderSubst d n rest
  | .dom :: rest => d ++ renderSubst d n rest
  | .comp :: rest => n ++ renderSubst d n rest

/-- A literal segment contains no brace characters. -/
def segBraceFree : TemplateSeg → Bool
  | .lit s => s.toList.all (fun c => !(c = '{' : Bool) && !(c = '}' : Bool))
  | .dom => true
  | .comp => true

/-! ## Theorems about the CircuitBreaker (claim C1) -/

/-- Folding record_failure over a list of times too short to reach the
threshold leaves the breaker Closed and adds the list length to the
failure count. -/
theorem CircuitBreaker.record_failures_below_threshold
    (thresh : Nat) (timeout : ℚ) (c : Nat) (o : Option ℚ) (ts : List ℚ)
    (h : c + ts.length < thresh) :
    CircuitBreaker.record_failures ⟨thresh, timeout, .closed, c, o⟩ ts
      = ⟨thresh, timeout, .closed, c + ts.length, o⟩ := by
  induction ts generalizing c with
  | nil => simp [CircuitBreaker.record_failures]
  | cons t ts ih =>
    have hc : ¬ thresh ≤ c + 1 := by
      simp only [List.length_cons] at h; omega
    have hstep :
        CircuitBreaker.record_failure ⟨thresh, timeout, .closed, c, o⟩ t
          = ⟨thresh, timeout, .closed, c + 1, o⟩ := by
      simp [CircuitBreaker.record_failure, hc]
    have h1 : (c + 1) + ts.length < thresh := by
      simp only [List.length_cons] at h; omega
    calc CircuitBreaker.record_failures ⟨thresh, timeout, .closed, c, o⟩ (t :: ts)
        = CircuitBreaker.record_failures
            (CircuitBreaker.record_failure ⟨thresh, timeout, .closed, c, o⟩ t) ts := by
          simp [CircuitBreaker.record_failures]
      _ = CircuitBreaker.record_failures ⟨thresh, timeout, .closed, c + 1, o⟩ ts := by
          rw [hstep]
      _ = ⟨thresh, timeout, .closed, c + ts.length + 1, o⟩ := by
          rw [ih _ h1]; congr 1; omega

/-- C1: starting from Closed with zero failures, exactly failure_threshold
consecutive record_failure calls (times ts then tl) open the circuit with the
open time stamped at the last failure; allow_request then returns false (and
leaves the breaker unchanged) while less than reset_timeout_seconds has
elapsed since opening; once reset_timeout_seconds has elapsed the next
allow_request returns true and moves the state to HalfOpen; record_failure
while HalfOpen immediately re-opens the circuit re-stamping the open time;
record_success while HalfOpen resets to Closed with zero failures and no
open timestamp. -/
theorem C1_circuit_breaker_state_machine
    (thresh : Nat) (timeout : ℚ) (ts : List ℚ) (tl : ℚ)
    (hlen : (ts ++ [tl]).length = thresh) :
    (CircuitBreaker.record_failures (CircuitBreaker.init thresh timeout) (ts ++ [tl])
        = ⟨thresh, timeout, .opened, thresh, some tl⟩) ∧
    (∀ now, now - tl < timeout →
        CircuitBreaker.allow_request ⟨thresh, timeout, .opened, thresh, some tl⟩ now
          = (false, ⟨thresh, timeout, .opened, thresh, some tl⟩)) ∧
    (∀ now, timeout ≤ now - tl →
        CircuitBreaker.allow_request ⟨thresh, timeout, .opened, thresh, some tl⟩ now
          = (true, ⟨thresh, timeout, .half_open, thresh, some tl⟩)) ∧
    (∀ t2, CircuitBreaker.record_failure ⟨thresh, timeout, .half_open, thresh, some tl⟩ t2
        = ⟨thresh, timeout, .opened, thresh + 1, some t2⟩) ∧
    (CircuitBreaker.record_success ⟨thresh, timeout, .half_open, thresh, some tl⟩
        = ⟨thresh, timeout, .closed, 0, none⟩) := by
  have hts : ts.length + 1 = thresh := by
    simpa using hlen
  refine ⟨?_, ?_, ?_, ?_, ?_⟩
  · have hbelow : 0 + ts.length < thresh := by omega
    have h1 := CircuitBreaker.record_failures_below_threshold thresh timeout 0 none ts hbelow
    have hinit : CircuitBreaker.init thresh timeout
        = ⟨thresh, timeout, .closed, 0, none⟩ := rfl
    simp only [CircuitBreaker.record_failures] at h1 ⊢
    rw [List.foldl_append, hinit, h1]
    have htrip : thresh ≤ ts.length + 1 := by omega
    simp only [List.foldl_cons, List.foldl_nil]
    simp [CircuitBreaker.record_failure, htrip, hts]
  · intro now h
    have hlt : ¬ timeout ≤ now - tl := not_le.mpr h
    simp [CircuitBreaker.allow_request, hlt]
  · intro now h
    simp [CircuitBreaker.allow_request, h]
  · intro t2
    have htrip : thresh ≤ thresh + 1 := Nat.le_succ thresh
    simp [CircuitBreaker.record_failure, htrip]
  · rfl

/-- Witness for C1: concrete instantiation at threshold 3, timeout 30,
failure times 1, 2, 5. -/
theorem C1_circuit_breaker_state_machine_witness :
    CircuitBreaker.record_failures (CircuitBreaker.init 3 30) ([1, 2] ++ [5])
        = ⟨3, 30, .opened, 3, some 5⟩ ∧
    CircuitBreaker.allow_request ⟨3, 30, .opened, 3, some 5⟩ 20
        = (false, ⟨3, 30, .opened, 3, some 5⟩) ∧
    CircuitBreaker.allow_request ⟨3, 30, .opened, 3, some 5⟩ 40
        = (true, ⟨3, 30, .half_open, 3, some 5⟩) := by
  have h := C1_circuit_breaker_state_machine 3 30 [1, 2] 5 (by simp)
  exact ⟨h.1, h.2.1 20 (by norm_num), h.2.2.1 40 (by norm_num)⟩

/-! ## Theorems about RunMetrics.to_dict (claim C10) -/

/-- C10: to_dict is total and never divides by zero: its divisor is clamped
below at 0.0001 = 1/10000 seconds, hence strictly positive for every call,
including one made at or before the recorded start time; and the
failed_requests value is returned verbatim. -/
theorem C10_to_dict_total (m : RunMetrics) (now : ℚ) :
    1 / 10000 ≤ m.elapsed now ∧
    0 < m.elapsed now ∧
    (m.to_dict now).1 = round2 ((m.total_queries_executed : ℚ) / m.elapsed now) ∧
    (m.to_dict now).2 = m.failed_requests :=
  ⟨le_max_left _ _,
   lt_of_lt_of_le (by norm_num) (le_max_left _ _),
   rfl, rfl⟩

/-! ## Theorems about _execute_one (claims C3, C4, C5, C6) -/

/-- C3 counterexample: a completed fetch whose SourceResult has success flag
true but an empty evidence list is recorded as a failure — failed_requests
becomes 1, the success counter stays 0, and the breaker's failure count
becomes 1 — contradicting the claim that a success-flagged result is
recorded as a success. -/
theorem C3_success_flag_counterexample :
    (execute_one
        (fun _ => some (fun _ _ _ => .ok ⟨"google_search", "acme.com", "q", [], true, none⟩))
        (CircuitBreaker.init 5 30) ⟨0, 0, 0⟩
        "acme.com" ⟨"google_search", "q", 1⟩ "quick" 0 7).metrics.total_queries_executed = 0 ∧
    (execute_one
        (fun _ => some (fun _ _ _ => .ok ⟨"google_search", "acme.com", "q", [], true, none⟩))
        (CircuitBreaker.init 5 30) ⟨0, 0, 0⟩
        "acme.com" ⟨"google_search", "q", 1⟩ "quick" 0 7).metrics.failed_requests = 1 ∧
    (execute_one
        (fun _ => some (fun _ _ _ => .ok ⟨"google_search", "acme.com", "q", [], true, none⟩))
        (CircuitBreaker.init 5 30) ⟨0, 0, 0⟩
        "acme.com" ⟨"google_search", "q", 1⟩ "quick" 0 7).breaker.failure_count = 1 :=
  ⟨rfl, rfl, rfl⟩

/-- C3 (amended): for every completed fetch task, the outcome is recorded
into both RunMetrics and the channel's CircuitBreaker, where a result counts
as a success exactly when its success flag is true AND its evidence list is
non-empty (metrics success counter incremented, breaker record_success); a
result with success flag false or empty evidence, and a raised exception,
are recorded as failures (failed counter incremented, breaker
record_failure). -/
theorem C3_record_outcome
    (sources : String → Option (String → String → String → Except String SourceResult))
    (breaker breaker1 : CircuitBreaker) (metrics : RunMetrics)
    (domain : String) (strategy : QueryStrategy) (depth : String)
    (now tdone : ℚ) (query : String)
    (f : String → String → String → Except String SourceResult)
    (hq : strategy.build_query domain = .ok query)
    (hsrc : sources strategy.channel = some f)
    (hallow : breaker.allow_request now = (true, breaker1)) :
    (∀ r, f domain query depth = .ok r → r.ok = true → r.evidences ≠ [] →
        execute_one sources breaker metrics domain strategy depth now tdone
          = ⟨.ok (domain, r), breaker1.record_success, metrics.record_query 1,
              [.poolAcquire (pool_name_for strategy.channel),
               .sourceFetch strategy.channel,
               .poolRelease (pool_name_for strategy.channel)]⟩) ∧
    (∀ r, f domain query depth = .ok r → r.ok = false ∨ r.evidences = [] →
        execute_one sources breaker metrics domain strategy depth now tdone
          = ⟨.ok (domain, r), breaker1.record_failure tdone, metrics.record_failure 1,
              [.poolAcquire (pool_name_for strategy.channel),
               .sourceFetch strategy.channel,
               .poolRelease (pool_name_for strategy.channel)]⟩) ∧
    (∀ exc, f domain query depth = .error exc →
        execute_one sources breaker metrics domain strategy depth now tdone
          = ⟨.ok (domain, ⟨strategy.channel, domain, query, [], false, some exc⟩),
              breaker1.record_failure tdone, metrics.record_failure 1,
              [.poolAcquire (pool_name_for strategy.channel),
               .sourceFetch strategy.channel,
               .poolRelease (pool_name_for strategy.channel)]⟩) := by
  refine ⟨?_, ?_, ?_⟩
  · intro r hf hok hne
    cases hev : r.evidences with
    | nil => exact absurd hev hne
    | cons a l =>
      simp only [execute_one, hq, hsrc, hallow, hf]
      simp [hok, hev]
  · intro r hf hfail
    simp only [execute_one, hq, hsrc, hallow, hf]
    rcases hfail with hok | hev
    · simp [hok]
    · simp [hev]
  · intro exc hf
    simp only [execute_one, hq, hsrc, hallow, hf]

/-- Witness for C3: a concrete successful fetch with one evidence item is
recorded as a success. -/
theorem C3_record_outcome_witness :
    execute_one
        (fun _ => some (fun _ _ _ =>
          .ok ⟨"google_search", "acme.com", "q", [⟨"https://a", "t", "s", "google_search"⟩],
               true, none⟩))
        (CircuitBreaker.init 5 30) ⟨0, 0, 0⟩
        "acme.com" ⟨"google_search", "q", 1⟩ "quick" 0 7
      = ⟨.ok ("acme.com",
            ⟨"google_search", "acme.com", "q", [⟨"https://a", "t", "s", "google_search"⟩],
             true, none⟩),
          (CircuitBreaker.init 5 30).record_success, RunMetrics.record_query ⟨0, 0, 0⟩ 1,
          [.poolAcquire "google_search", .sourceFetch "google_search",
           .poolRelease "google_search"]⟩ :=
  (C3_record_outcome
      (fun _ => some (fun _ _ _ =>
        .ok ⟨"google_search", "acme.com", "q", [⟨"https://a", "t", "s", "google_search"⟩],
             true, none⟩))
      (CircuitBreaker.init 5 30) (CircuitBreaker.init 5 30) ⟨0, 0, 0⟩
      "acme.com" ⟨"google_search", "q", 1⟩ "quick" 0 7 "q" _ rfl rfl rfl).1
    _ rfl rfl (by decide)

/-- C4 counterexample: when no Source is registered for the strategy's
channel, the synthesized failure carries the error text "unknown channel",
not "unknown dependency" as the claim states. -/
theorem C4_unknown_dependency_counterexample :
    (execute_one (fun _ => none) (CircuitBreaker.init 5 30) ⟨0, 0, 0⟩
        "acme.com" ⟨"linkedin_search", "ai hiring", 1⟩ "quick" 0 0).result
      = .ok ("acme.com",
          ⟨"linkedin_search", "acme.com", "ai hiring", [], false, some "unknown channel"⟩) ∧
    ("unknown channel" : String) ≠ "unknown dependency" :=
  ⟨rfl, by decide⟩

/-- C4 (amended): a task whose strategy names a channel with no registered
Source yields a SourceResult with success flag false and error
"unknown channel", with no pool slot acquired, no Source invoked, and
breaker and metrics untouched. -/
theorem C4_unknown_channel
    (sources : String → Option (String → String → String → Except String SourceResult))
    (breaker : CircuitBreaker) (metrics : RunMetrics)
    (domain : String) (strategy : QueryStrategy) (depth : String)
    (now tdone : ℚ) (query : String)
    (hq : strategy.build_query domain = .ok query)
    (hsrc : sources strategy.channel = none) :
    execute_one sources breaker metrics domain strategy depth now tdone
      = ⟨.ok (domain,
            ⟨strategy.channel, domain, query, [], false, some "unknown channel"⟩),
          breaker, metrics, []⟩ := by
  simp only [execute_one, hq, hsrc]

/-- Witness for C4 (amended). -/
theorem C4_unknown_channel_witness :
    execute_one (fun _ => none) (CircuitBreaker.init 5 30) ⟨0, 0, 0⟩
        "acme.com" ⟨"linkedin_search", "ai hiring", 1⟩ "quick" 0 0
      = ⟨.ok ("acme.com",
            ⟨"linkedin_search", "acme.com", "ai hiring", [], false, some "unknown channel"⟩),
          CircuitBreaker.init 5 30, ⟨0, 0, 0⟩, []⟩ :=
  C4_unknown_channel (fun _ => none) (CircuitBreaker.init 5 30) ⟨0, 0, 0⟩
    "acme.com" ⟨"linkedin_search", "ai hiring", 1⟩ "quick" 0 0 "ai hiring" rfl rfl

/-- C5: a task whose channel breaker rejects the request yields a failed
SourceResult with error "circuit open", with no Source invoked and no pool
slot acquired (the effect list is empty: the breaker check precedes the
pool acquisition), so the rejected task consumes no pool capacity. -/
theorem C5_circuit_open
    (sources : String → Option (String → String → String → Except String SourceResult))
    (breaker breaker1 : CircuitBreaker) (metrics : RunMetrics)
    (domain : String) (strategy : QueryStrategy) (depth : String)
    (now tdone : ℚ) (query : String)
    (f : String → String → String → Except String SourceResult)
    (hq : strategy.build_query domain = .ok query)
    (hsrc : sources strategy.channel = some f)
    (hallow : breaker.allow_request now = (false, breaker1)) :
    execute_one sources breaker metrics domain strategy depth now tdone
      = ⟨.ok (domain,
            ⟨strategy.channel, domain, query, [], false, some "circuit open"⟩),
          breaker1, metrics, []⟩ := by
  simp only [execute_one, hq, hsrc, hallow]

/-- Witness for C5: a breaker opened at time 0 with reset timeout 30,
checked at time 10, rejects the task. -/
theorem C5_circuit_open_witness :
    execute_one (fun _ => some (fun _ _ _ => .error "should not run"))
        ⟨5, 30, .opened, 5, some 0⟩ ⟨0, 0, 0⟩
        "acme.com" ⟨"google_search", "q", 1⟩ "quick" 10 10
      = ⟨.ok ("acme.com",
            ⟨"google_search", "acme.com", "q", [], false, some "circuit open"⟩),
          ⟨5, 30, .opened, 5, some 0⟩, ⟨0, 0, 0⟩, []⟩ :=
  C5_circuit_open (fun _ => some (fun _ _ _ => .error "should not run"))
    ⟨5, 30, .opened, 5, some 0⟩ ⟨5, 30, .opened, 5, some 0⟩ ⟨0, 0, 0⟩
    "acme.com" ⟨"google_search", "q", 1⟩ "quick" 10 10 "q"
    (fun _ _ _ => .error "should not run") rfl rfl
    (by norm_num [CircuitBreaker.allow_request]; decide)

/-- C6: once a task reaches the fetch stage, an exception raised by the
Source's fetch is caught and converted into a SourceResult with success
flag false carrying the exception text; the task's returned value is a
normal return (never a propagated exception); and the pool slot is
acquired and released exactly once whether the fetch returns a success, a
failure, or raises. -/
theorem C6_fetch_exception_contained
    (sources : String → Option (String → String → String → Except String SourceResult))
    (breaker breaker1 : CircuitBreaker) (metrics : RunMetrics)
    (domain : String) (strategy : QueryStrategy) (depth : String)
    (now tdone : ℚ) (query : String)
    (f : String → String → String → Except String SourceResult)
    (hq : strategy.build_query domain = .ok query)
    (hsrc : sources strategy.channel = some f)
    (hallow : breaker.allow_request now = (true, breaker1)) :
    (∀ exc, f domain query depth = .error exc →
        (execute_one sources breaker metrics domain strategy depth now tdone).result
          = .ok (domain,
              ⟨strategy.channel, domain, query, [], false, some exc⟩)) ∧
    (∃ pr, (execute_one sources breaker metrics domain strategy depth now tdone).result
        = .ok pr) ∧
    ((execute_one sources breaker metrics domain strategy depth now tdone).effects
        = [.poolAcquire (pool_name_for strategy.channel),
           .sourceFetch strategy.channel,
           .poolRelease (pool_name_for strategy.channel)]) := by
  refine ⟨?_, ?_, ?_⟩
  · intro exc hf
    simp only [execute_one, hq, hsrc, hallow, hf]
  · cases hf : f domain query depth with
    | ok r =>
      simp only [execute_one, hq, hsrc, hallow, hf]
      by_cases hc : (r.ok && !r.evidences.isEmpty) = true
      · exact ⟨(domain, r), by simp [hc]⟩
      · exact ⟨(domain, r), by simp [hc]⟩
    | error exc =>
      exact ⟨(domain, ⟨strategy.channel, domain, query, [], false, some exc⟩),
        by simp only [execute_one, hq, hsrc, hallow, hf]⟩
  · cases hf : f domain query depth with
    | ok r =>
      simp only [execute_one, hq, hsrc, hallow, hf]
      by_cases hc : (r.ok && !r.evidences.isEmpty) = true
      · simp [hc]
      · simp [hc]
    | error exc =>
      simp only [execute_one, hq, hsrc, hallow, hf]

/-- Witness for C6: a fetch that raises with text "boom" is converted into
a failed SourceResult carrying "boom". -/
theorem C6_fetch_exception_contained_witness :
    (execute_one (fun _ => some (fun _ _ _ => .error "boom"))
        (CircuitBreaker.init 5 30) ⟨0, 0, 0⟩
        "acme.com" ⟨"news_search", "q", 1⟩ "quick" 0 7).result
      = .ok ("acme.com", ⟨"news_search", "acme.com", "q", [], false, some "boom"⟩) :=
  (C6_fetch_exception_contained (fun _ => some (fun _ _ _ => .error "boom"))
      (CircuitBreaker.init 5 30) (CircuitBreaker.init 5 30) ⟨0, 0, 0⟩
      "acme.com" ⟨"news_search", "q", 1⟩ "quick" 0 7 "q"
      (fun _ _ _ => .error "boom") rfl rfl rfl).1 "boom" rfl

/-! ## Theorems about StreamingAggregator.add_evidence (claim C2) -/

/-- C2: two Evidence items with the same dedup key (same raw url and the
same whitespace/case-normalized title).  Adding the first succeeds; adding
the second reaches the duplicate branch, which compares evidence.score —
but the Evidence model declares no score field, so the call raises
AttributeError instead of retaining the higher-scored duplicate. -/
theorem C2_missing_score_field :
    evidence_key ⟨"https://acme.com/blog", "AI  Fraud", "uses ai", "google_search"⟩
      = evidence_key ⟨"https://acme.com/blog", "ai fraud", "other", "news_search"⟩ ∧
    ∃ agg1 upd1,
      StreamingAggregator.add_evidence ⟨"find ai", ["ai"], 7 / 10, [], [], 0, 0⟩
          "acme.com" ⟨"https://acme.com/blog", "AI  Fraud", "uses ai", "google_search"⟩ 5
        = .ok (agg1, upd1) ∧
      agg1.add_evidence "acme.com"
          ⟨"https://acme.com/blog", "ai fraud", "other", "news_search"⟩ 6
        = .error "AttributeError: Evidence object has no attribute score" :=
  ⟨rfl, _, _, rfl, rfl⟩

/-! ## Theorems about QueryStrategy.build_query (claim C9) -/

/-- A character that is not a brace is copied through the format scanner. -/
theorem formatGo_char (d n : String) (c : Char) (l : List Char)
    (h1 : c ≠ '{') (h2 : c ≠ '}') :
    formatGo d n none (c :: l) = (fun r => c :: r) <$> formatGo d n none l := by
  rw [formatGo.eq_def]
  split <;> simp_all

/-- Brace-free literal text is copied through the format scanner. -/
theorem formatGo_lit (d n : String) (cs rest : List Char)
    (h : ∀ c ∈ cs, c ≠ '{' ∧ c ≠ '}') :
    formatGo d n none (cs ++ rest)
      = (fun r => cs ++ r) <$> formatGo d n none rest := by
  induction cs with
  | nil => cases hr : formatGo d n none rest <;> simp [Except.map, hr]
  | cons c cs ih =>
    have hc := h c (List.mem_cons_self c cs)
    rw [List.cons_append, formatGo_char d n c (cs ++ rest) hc.1 hc.2,
      ih (fun c hc => h c (List.mem_cons_of_mem _ hc))]
    cases hr : formatGo d n none rest <;> simp [Except.map, hr]

/-- The DOMAIN replacement field substitutes the domain argument. -/
theorem formatGo_domain (d n : String) (rest : List Char) :
    formatGo d n none ("{DOMAIN}".toList ++ rest)
      = (fun r => d.toList ++ r) <$> formatGo d n none rest := by
  simp [formatGo]

/-- The COMPANY_NAME replacement field substitutes the company argument. -/
theorem formatGo_company (d n : String) (rest : List Char) :
    formatGo d n none ("{COMPANY_NAME}".toList ++ rest)
      = (fun r => n.toList ++ r) <$> formatGo d n none rest := by
  simp [formatGo]

/-- On a template made of brace-free literals and the two placeholders,
the format scanner returns the template with each placeholder replaced. -/
theorem formatGo_render (d n : String) (segs : List TemplateSeg)
    (h : ∀ seg ∈ segs, segBraceFree seg = true) :
    formatGo d n none (renderTemplate segs).toList
      = .ok (renderSubst d n segs).toList := by
  induction segs with
  | nil => rfl
  | cons seg rest ih =>
    have hrest : ∀ s ∈ rest, segBraceFree s = true :=
      fun s hs => h s (List.mem_cons_of_mem _ hs)
    cases seg with
    | lit s =>
      have hs := h _ (List.mem_cons_self _ _)
      have hchars : ∀ c ∈ s.toList, c ≠ '{' ∧ c ≠ '}' := by
        intro c hc
        have := List.all_eq_true.mp hs c hc
        constructor <;> simp_all
      show formatGo d n none (s.toList ++ (renderTemplate rest).toList)
        = .ok (s.toList ++ (renderSubst d n rest).toList)
      rw [formatGo_lit d n s.toList _ hchars, ih hrest]
      rfl
    | dom =>
      show formatGo d n none ("{DOMAIN}".toList ++ (renderTemplate rest).toList)
        = .ok (d.toList ++ (renderSubst d n rest).toList)
      rw [formatGo_domain, ih hrest]
      rfl
    | comp =>
      show formatGo d n none ("{COMPANY_NAME}".toList ++ (renderTemplate rest).toList)
        = .ok (n.toList ++ (renderSubst d n rest).toList)
      rw [formatGo_company, ih hrest]
      rfl

/-- Characters before the first dot are kept by takeWhile. -/
theorem takeWhile_ne_dot (p q : List Char) (hp : ∀ c ∈ p, c ≠ '.') :
    (p ++ '.' :: q).takeWhile (fun c => decide (c ≠ '.')) = p := by
  induction p with
  | nil => simp
  | cons c cs ih =>
    have hc := hp c (List.mem_cons_self c cs)
    have ih2 := ih (fun x hx => hp x (List.mem_cons_of_mem _ hx))
    simp [List.takeWhile_cons, hc]
    simpa using ih2

/-- C9: build_query returns the template verbatim, ignoring the domain,
when the channel is jobs_search; for every other channel it returns the
template with DOMAIN replaced by the domain and COMPANY_NAME replaced by
the company name computed as the substring of the domain before its first
dot (the whole domain when it has no dot). -/
theorem C9_build_query_substitution (s : QueryStrategy) (d : String)
    (segs : List TemplateSeg)
    (hsegs : ∀ seg ∈ segs, segBraceFree seg = true)
    (htemp : s.query_template = renderTemplate segs) :
    (s.channel = "jobs_search" → s.build_query d = .ok s.query_template) ∧
    (s.channel ≠ "jobs_search" →
        s.build_query d = .ok (renderSubst d (splitDotHead d) segs)) ∧
    (∀ (p q : List Char), (∀ c ∈ p, c ≠ '.') →
        splitDotHead (String.mk (p ++ '.' :: q)) = String.mk p) := by
  refine ⟨?_, ?_, ?_⟩
  · intro hch
    simp [QueryStrategy.build_query, hch]
  · intro hch
    simp only [QueryStrategy.build_query, hch, if_false]
    rw [htemp]
    unfold pyFormat
    rw [formatGo_render d (splitDotHead d) segs hsegs]
    simp [Except.map]
  · intro p q hp
    unfold splitDotHead
    congr 1
    exact takeWhile_ne_dot p q hp

/-- Witness for C9: a google_search template with both placeholders, and a
jobs_search template returned verbatim. -/
theorem C9_build_query_substitution_witness :
    QueryStrategy.build_query ⟨"google_search", "site:{DOMAIN} {COMPANY_NAME} ai", 1⟩
        "acme.com"
      = .ok "site:acme.com acme ai" ∧
    QueryStrategy.build_query ⟨"jobs_search", "machine learning engineer", 1⟩
        "acme.com"
      = .ok "machine learning engineer" := by
  constructor
  · exact ((C9_build_query_substitution
        ⟨"google_search", "site:{DOMAIN} {COMPANY_NAME} ai", 1⟩ "acme.com"
        [.lit "site:", .dom, .lit " ", .comp, .lit " ai"]
        (by decide) rfl).2.1 (by decide)).trans rfl
  · exact (C9_build_query_substitution
        ⟨"jobs_search", "machine learning engineer", 1⟩ "acme.com"
        [.lit "machine learning engineer"]
        (by decide) rfl).1 rfl

/-! ## Theorems about run (claim C7) -/

/-- The key list after addEvidences: unchanged when the key is present,
extended by the key otherwise. -/
theorem addEvidences_keys (m : List (String × List Evidence)) (d : String)
    (evs : List Evidence) :
    (addEvidences m d evs).map Prod.fst
      = if d ∈ m.map Prod.fst then m.map Prod.fst
        else m.map Prod.fst ++ [d] := by
  induction m with
  | nil => simp [addEvidences]
  | cons p rest ih =>
    obtain ⟨k, v⟩ := p
    by_cases hk : k = d
    · subst hk
      simp [addEvidences]
    · have hne : d ≠ k := fun h => hk h.symm
      simp only [addEvidences, if_neg hk, List.map_cons]
      rw [ih]
      by_cases hd : d ∈ rest.map Prod.fst
      · simp [hd, List.mem_cons]
      · have hnm : ¬ (d = k ∨ d ∈ rest.map Prod.fst) := by
          rintro (h | h)
          · exact hne h
          · exact hd h
        simp [hd, List.mem_cons, hnm, hne]

/-- Membership in the keys after addEvidences. -/
theorem mem_addEvidences_keys (m : List (String × List Evidence)) (d x : String)
    (evs : List Evidence) :
    x ∈ (addEvidences m d evs).map Prod.fst
      ↔ x ∈ m.map Prod.fst ∨ x = d := by
  rw [addEvidences_keys]
  split
  · next h => exact ⟨Or.inl, fun hc => hc.elim id (fun e => e ▸ h)⟩
  · simp

/-- addEvidences preserves key distinctness. -/
theorem addEvidences_keys_nodup (m : List (String × List Evidence)) (d : String)
    (evs : List Evidence) (h : (m.map Prod.fst).Nodup) :
    ((addEvidences m d evs).map Prod.fst).Nodup := by
  rw [addEvidences_keys]
  split
  · exact h
  · next hd => simp [List.nodup_append, h, hd]

/-- The collectStep guard as a proposition. -/
theorem collectStep_cond (r : SourceResult) :
    (r.ok && !r.evidences.isEmpty) = true ↔ r.ok = true ∧ r.evidences ≠ [] := by
  simp [List.isEmpty_iff]

/-- A domain is a key of the collection fold exactly when it was already a
key or some completed pair for it has ok true and non-empty evidence. -/
theorem mem_collect_foldl_keys (completed : List (String × SourceResult))
    (m : List (String × List Evidence)) (x : String) :
    x ∈ (completed.foldl collectStep m).map Prod.fst
      ↔ x ∈ m.map Prod.fst
        ∨ ∃ p ∈ completed, p.1 = x ∧ p.2.ok = true ∧ p.2.evidences ≠ [] := by
  induction completed generalizing m with
  | nil => simp
  | cons p rest ih =>
    simp only [List.foldl_cons]
    rw [ih]
    by_cases hp : (p.2.ok && !p.2.evidences.isEmpty) = true
    · obtain ⟨hok, hne⟩ := (collectStep_cond p.2).mp hp
      rw [show collectStep m p = addEvidences m p.1 p.2.evidences by
        simp [collectStep, hp]]
      rw [mem_addEvidences_keys]
      constructor
      · rintro ((h | rfl) | ⟨q, hq, hq1, hq2, hq3⟩)
        · exact Or.inl h
        · exact Or.inr ⟨p, List.mem_cons_self _ _, rfl, hok, hne⟩
        · exact Or.inr ⟨q, List.mem_cons_of_mem _ hq, hq1, hq2, hq3⟩
      · rintro (h | ⟨q, hq, hq1, hq2, hq3⟩)
        · exact Or.inl (Or.inl h)
        · rcases List.mem_cons.mp hq with rfl | hq2m
          · exact Or.inl (Or.inr hq1.symm)
          · exact Or.inr ⟨q, hq2m, hq1, hq2, hq3⟩
    · have hfail : ¬ (p.2.ok = true ∧ p.2.evidences ≠ []) :=
        fun hc => hp ((collectStep_cond p.2).mpr hc)
      rw [show collectStep m p = m by simp [collectStep, hp]]
      constructor
      · rintro (h | ⟨q, hq, hq1, hq2, hq3⟩)
        · exact Or.inl h
        · exact Or.inr ⟨q, List.mem_cons_of_mem _ hq, hq1, hq2, hq3⟩
      · rintro (h | ⟨q, hq, hq1, hq2, hq3⟩)
        · exact Or.inl h
        · rcases List.mem_cons.mp hq with rfl | hq2m
          · exact absurd ⟨hq2, hq3⟩ hfail
          · exact Or.inr ⟨q, hq2m, hq1, hq2, hq3⟩

/-- The collection fold keeps the key list duplicate-free. -/
theorem collect_foldl_keys_nodup (completed : List (String × SourceResult))
    (m : List (String × List Evidence)) (h : (m.map Prod.fst).Nodup) :
    ((completed.foldl collectStep m).map Prod.fst).Nodup := by
  induction completed generalizing m with
  | nil => exact h
  | cons p rest ih =>
    simp only [List.foldl_cons]
    apply ih
    unfold collectStep
    split
    · exact addEvidences_keys_nodup _ _ _ h
    · exact h

/-- Counting results for one domain equals counting the domain in the
projected domain list. -/
theorem filter_domain_length (l : List CompanyResearchResult) (d : String) :
    (l.filter (fun r => r.domain = d)).length
      = (l.map (fun r => r.domain)).count d := by
  induction l with
  | nil => rfl
  | cons r t ih =>
    by_cases h : r.domain = d
    · simp [List.filter_cons, List.count_cons, h, ih]
    · simp [List.filter_cons, List.count_cons, h, ih]

/-- The projected domain list of run's results: the collection keys
followed by the distinct input domains that are not keys. -/
theorem run_results_map_domain (domains : List String)
    (strategies : List QueryStrategy)
    (completed : List (String × SourceResult))
    (analyze : String → List Evidence → AnalysisResult) :
    (run_results domains strategies completed analyze).1.map (fun r => r.domain)
      = (collect_evidence completed).map Prod.fst
        ++ domains.dedup.filter
            (fun d => d ∉ (collect_evidence completed).map Prod.fst) := by
  simp only [run_results, List.map_append, List.map_map]
  congr 1
  · apply List.map_congr_left
    intro p _
    by_cases h : p.2.isEmpty
    · simp [Function.comp, h, build_empty_result]
    · simp [Function.comp, h, build_company_result]
  · conv_rhs => rw [← List.map_id (List.filter
      (fun d => decide (d ∉ List.map Prod.fst (collect_evidence completed)))
      domains.dedup)]
    apply List.map_congr_left
    intro a _
    rfl

/-- C7 (amended): run returns exactly one Result per distinct input entity
(the result list length is the number of distinct entities; duplicate
entries in the entity list collapse), and every entity with zero collected
evidence appears with confidence 0.0, zero evidence-source count, and empty
evidence and labels. -/
theorem C7_run_per_entity (domains : List String)
    (strategies : List QueryStrategy)
    (completed : List (String × SourceResult))
    (analyze : String → List Evidence → AnalysisResult)
    (hdom : ∀ p ∈ completed, p.1 ∈ domains) :
    ((run_results domains strategies completed analyze).1.length
        = domains.dedup.length) ∧
    (∀ d ∈ domains,
        ((run_results domains strategies completed analyze).1.filter
            (fun r => r.domain = d)).length = 1) ∧
    (∀ d ∈ domains,
        (∀ p ∈ completed, p.1 = d → ¬ (p.2.ok = true ∧ p.2.evidences ≠ [])) →
        ∃ r ∈ (run_results domains strategies completed analyze).1,
          r.domain = d ∧ r.confidence_score = 0 ∧ r.evidence_sources = 0 ∧
          r.findings.evidence = [] ∧ r.findings.technologies = [] ∧
          r.findings.signals_found = 0) := by
  classical
  have hnodupK : ((collect_evidence completed).map Prod.fst).Nodup := by
    unfold collect_evidence
    exact collect_foldl_keys_nodup completed [] (by simp)
  have hmemK : ∀ x, x ∈ (collect_evidence completed).map Prod.fst
      ↔ ∃ p ∈ completed, p.1 = x ∧ p.2.ok = true ∧ p.2.evidences ≠ [] := by
    intro x
    unfold collect_evidence
    simpa using mem_collect_foldl_keys completed [] x
  have hsubK : ∀ x ∈ (collect_evidence completed).map Prod.fst,
      x ∈ domains.dedup := by
    intro x hx
    obtain ⟨p, hp, rfl, -, -⟩ := (hmemK x).mp hx
    exact List.mem_dedup.mpr (hdom p hp)
  have hmap := run_results_map_domain domains strategies completed analyze
  set keys := (collect_evidence completed).map Prod.fst with hk
  set miss := domains.dedup.filter (fun d => d ∉ keys) with hmz
  have hnodupMap : ((run_results domains strategies completed analyze).1.map
      (fun r => r.domain)).Nodup := by
    rw [hmap, List.nodup_append]
    refine ⟨hnodupK, List.Nodup.filter _ (List.nodup_dedup domains), ?_⟩
    intro a ha hamiss
    have h2 := (List.mem_filter.mp hamiss).2
    simp only [decide_eq_true_eq] at h2
    exact h2 ha
  refine ⟨?_, ?_, ?_⟩
  · have h1 : (run_results domains strategies completed analyze).1.length
        = ((run_results domains strategies completed analyze).1.map
            (fun r => r.domain)).length := by
      rw [List.length_map]
    rw [h1, hmap, List.length_append]
    have hperm := List.filter_append_perm (fun d => decide (d ∈ keys)) domains.dedup
    have hlen := hperm.length_eq
    rw [List.length_append] at hlen
    have hmiss_eq : domains.dedup.filter (fun x => !(decide (x ∈ keys))) = miss := by
      rw [hmz]
      apply List.filter_congr
      intro a _
      simp
    rw [hmiss_eq] at hlen
    have hpermKeys : List.Perm
        (domains.dedup.filter (fun d => decide (d ∈ keys))) keys := by
      rw [List.perm_ext_iff_of_nodup
        (List.Nodup.filter _ (List.nodup_dedup domains)) hnodupK]
      intro a
      rw [List.mem_filter]
      constructor
      · rintro ⟨-, h⟩
        exact of_decide_eq_true h
      · intro h
        exact ⟨hsubK a h, decide_eq_true h⟩
    have hkl := hpermKeys.length_eq
    omega
  · intro d hd
    rw [filter_domain_length]
    have hdm : d ∈ (run_results domains strategies completed analyze).1.map
        (fun r => r.domain) := by
      rw [hmap]
      by_cases hdk : d ∈ keys
      · exact List.mem_append_left _ hdk
      · refine List.mem_append_right _ ?_
        rw [hmz, List.mem_filter]
        exact ⟨List.mem_dedup.mpr hd, decide_eq_true hdk⟩
    exact List.count_eq_one_of_mem hnodupMap hdm
  · intro d hd hzero
    have hdk : d ∉ keys := by
      intro hkk
      obtain ⟨p, hp, hp1, hp2, hp3⟩ := (hmemK d).mp hkk
      exact hzero p hp hp1 ⟨hp2, hp3⟩
    refine ⟨build_empty_result d, ?_, rfl, rfl, rfl, rfl, rfl, rfl⟩
    show build_empty_result d ∈ (run_results domains strategies completed analyze).1
    simp only [run_results]
    apply List.mem_append_right
    apply List.mem_map_of_mem
    rw [List.mem_filter]
    exact ⟨List.mem_dedup.mpr hd, decide_eq_true hdk⟩

/-- C7 counterexample: with the duplicate entity list ["a.com", "a.com"]
(and every fetch failed), run returns one Result, not one per entry of the
input list: the result count is the number of distinct entities, not the
entity count. -/
theorem C7_duplicate_domains_counterexample :
    (run_results ["a.com", "a.com"] [⟨"google_search", "q", 1⟩]
        [("a.com", ⟨"google_search", "a.com", "q", [], false, some "boom"⟩),
         ("a.com", ⟨"google_search", "a.com", "q", [], false, some "boom"⟩)]
        (fun _ _ => ⟨[], [], 0⟩)).1.length = 1 ∧
    (["a.com", "a.com"] : List String).length = 2 ∧ (1 : Nat) ≠ 2 :=
  ⟨rfl, rfl, by decide⟩

/-- Witness for C7: two distinct domains, one with evidence and one with
only a failed fetch; the failed one still appears with an all-empty
zero-confidence Result. -/
theorem C7_run_per_entity_witness :
    ((run_results ["a.com", "b.com"] [⟨"google_search", "q", 1⟩]
        [("a.com", ⟨"google_search", "a.com", "q",
            [⟨"https://a", "t", "s", "google_search"⟩], true, none⟩),
         ("b.com", ⟨"google_search", "b.com", "q", [], false, some "x"⟩)]
        (fun _ _ => ⟨["kafka"], ["sig"], 1 / 2⟩)).1.length
      = (["a.com", "b.com"] : List String).dedup.length) ∧
    ∃ r ∈ (run_results ["a.com", "b.com"] [⟨"google_search", "q", 1⟩]
        [("a.com", ⟨"google_search", "a.com", "q",
            [⟨"https://a", "t", "s", "google_search"⟩], true, none⟩),
         ("b.com", ⟨"google_search", "b.com", "q", [], false, some "x"⟩)]
        (fun _ _ => ⟨["kafka"], ["sig"], 1 / 2⟩)).1,
      r.domain = "b.com" ∧ r.confidence_score = 0 ∧ r.evidence_sources = 0 ∧
      r.findings.evidence = [] ∧ r.findings.technologies = [] ∧
      r.findings.signals_found = 0 := by
  have h := C7_run_per_entity ["a.com", "b.com"] [⟨"google_search", "q", 1⟩]
    [("a.com", ⟨"google_search", "a.com", "q",
        [⟨"https://a", "t", "s", "google_search"⟩], true, none⟩),
     ("b.com", ⟨"google_search", "b.com", "q", [], false, some "x"⟩)]
    (fun _ _ => ⟨["kafka"], ["sig"], 1 / 2⟩) (by decide)
  exact ⟨h.1, h.2.2 "b.com" (by decide) (by decide)⟩

/-! ## Theorems about the stream generator (claim C8) -/

/-- The sequence ids carried by the loop's events strictly increase and
all exceed the entering counter value. -/
theorem streamLoop_ids (rs : List (Option String)) (hbs : List Bool) (c : Nat) :
    List.Chain' (· < ·) ((streamLoop rs hbs c).filterMap (fun e => e.eid)) ∧
    ∀ i ∈ (streamLoop rs hbs c).filterMap (fun e => e.eid), c < i := by
  induction rs generalizing hbs c with
  | nil => simp [streamLoop]
  | cons r rs ih =>
    obtain ⟨ih1, ih2⟩ := ih hbs.tail (c + 1)
    cases r with
    | some t =>
      have hids : (streamLoop (some t :: rs) hbs c).filterMap (fun e => e.eid)
          = (c + 1) :: (streamLoop rs hbs.tail (c + 1)).filterMap (fun e => e.eid) := by
        cases hhb : hbs.headD false <;>
          simp [streamLoop, hhb, List.filterMap_append]
      rw [hids]
      constructor
      · rw [List.chain'_cons']
        exact ⟨fun b hbm => ih2 b (List.mem_of_mem_head? hbm), ih1⟩
      · intro i hi
        rcases List.mem_cons.mp hi with rfl | hi2
        · exact Nat.lt_succ_self c
        · exact Nat.lt_of_succ_lt (ih2 i hi2)
    | none =>
      have hids : (streamLoop (none :: rs) hbs c).filterMap (fun e => e.eid)
          = (streamLoop rs hbs.tail (c + 1)).filterMap (fun e => e.eid) := by
        cases hhb : hbs.headD false <;>
          simp [streamLoop, hhb, List.filterMap_append]
      rw [hids]
      exact ⟨ih1, fun i hi => Nat.lt_of_succ_lt (ih2 i hi)⟩

/-- C8 (amended): for every stream, the first emitted event is connected
with sequence id 0 and the sequence ids carried by events strictly
increase; the stream always ends with terminal framing, but not with
exactly one terminal-class event: on normal pipeline termination the last
event is the generator's completed event (the forwarded pipeline_complete
event precedes it), and when pulling a pipeline event raises, the stream
ends with an error event followed by the stream_error marker. -/
theorem C8_stream_sequence (raws : List (Option String))
    (perr : Option String) (hb : List Bool) :
    (generate_stream raws perr hb).head? = some ⟨"connected", some 0⟩ ∧
    List.Chain' (· < ·)
      ((generate_stream raws perr hb).filterMap (fun e => e.eid)) ∧
    (perr = none →
        (generate_stream raws perr hb).getLast? = some ⟨"completed", none⟩) ∧
    (∀ e, perr = some e →
        (generate_stream raws perr hb).getLast? = some ⟨"stream_error", none⟩ ∧
        (generate_stream raws perr hb).dropLast.getLast?
          = some ⟨"error", none⟩) := by
  obtain ⟨hl1, hl2⟩ := streamLoop_ids raws hb 1
  refine ⟨rfl, ?_, ?_, ?_⟩
  · have htail : ((match perr with
        | none => [⟨"completed", none⟩]
        | some _ =>
          [⟨"error", none⟩, ⟨"stream_error", none⟩] : List SSEEvent)).filterMap
          (fun e => e.eid) = [] := by
      cases perr <;> rfl
    have hids : (generate_stream raws perr hb).filterMap (fun e => e.eid)
        = 0 :: (streamLoop raws hb 1).filterMap (fun e => e.eid) := by
      simp [generate_stream, List.filterMap_append, htail]
    rw [hids, List.chain'_cons']
    refine ⟨?_, hl1⟩
    intro b hbm
    have := hl2 b (List.mem_of_mem_head? hbm)
    omega
  · intro hpe
    subst hpe
    show ((⟨"connected", some 0⟩ : SSEEvent) :: streamLoop raws hb 1
        ++ [(⟨"completed", none⟩ : SSEEvent)]).getLast?
      = some (⟨"completed", none⟩ : SSEEvent)
    rw [List.getLast?_concat]
  · intro e hpe
    subst hpe
    have hassoc : (⟨"connected", some 0⟩ : SSEEvent) :: streamLoop raws hb 1
        ++ [(⟨"error", none⟩ : SSEEvent), (⟨"stream_error", none⟩ : SSEEvent)]
        = (((⟨"connected", some 0⟩ : SSEEvent) :: streamLoop raws hb 1)
            ++ [(⟨"error", none⟩ : SSEEvent)])
            ++ [(⟨"stream_error", none⟩ : SSEEvent)] := by
      simp
    constructor
    · show ((⟨"connected", some 0⟩ : SSEEvent) :: streamLoop raws hb 1
          ++ [(⟨"error", none⟩ : SSEEvent),
              (⟨"stream_error", none⟩ : SSEEvent)]).getLast?
        = some (⟨"stream_error", none⟩ : SSEEvent)
      rw [hassoc, List.getLast?_concat]
    · show ((⟨"connected", some 0⟩ : SSEEvent) :: streamLoop raws hb 1
          ++ [(⟨"error", none⟩ : SSEEvent),
              (⟨"stream_error", none⟩ : SSEEvent)]).dropLast.getLast?
        = some (⟨"error", none⟩ : SSEEvent)
      rw [hassoc, List.dropLast_concat, List.getLast?_concat]

/-- C8 counterexample: a normal streamed run (here with one analyzed
domain and no progress milestones) contains two terminal-class events —
the forwarded pipeline_complete and the generator's completed — refuting
that the stream never holds more than one terminal event. -/
theorem C8_single_terminal_counterexample :
    ((generate_stream ((run_stream_types 0 1).map some) none []).filter
        isTerminalClass).length = 2 ∧
    (2 : Nat) ≠ 1 :=
  ⟨rfl, by decide⟩

/-- Witness for C8: a concrete successful stream ends with completed, and
a concrete failing stream ends with error then stream_error. -/
theorem C8_stream_sequence_witness :
    (generate_stream ((run_stream_types 2 1).map some) none [true]).getLast?
      = some ⟨"completed", none⟩ ∧
    (generate_stream [some "pipeline_start"] (some "boom") []).getLast?
      = some ⟨"stream_error", none⟩ ∧
    (generate_stream [some "pipeline_start"] (some "boom") []).dropLast.getLast?
      = some ⟨"error", none⟩ := by
  refine ⟨(C8_stream_sequence ((run_stream_types 2 1).map some) none
      [true]).2.2.1 rfl, ?_, ?_⟩
  · exact ((C8_stream_sequence [some "pipeline_start"] (some "boom")
      []).2.2.2 "boom" rfl).1
  · exact ((C8_stream_sequence [some "pipeline_start"] (some "boom")
      []).2.2.2 "boom" rfl).2

end GTM
